import Mathlib

/-!
Verification of the BB84 quantum-network simulator against its specification.

The repository ships a README, a React dashboard (`App.jsx`,
`RandomScenarios.jsx`) and a Python simulation core that the README lists
(`bb84_core.py`, `network.py`, `api.py`, ...) but whose sources are not part
of the checked-in tree.  The core is therefore modelled here from the
specification's own words (each such definition carries a doc comment
starting `Modelled from the spec:`), while the dashboard components are
embedded directly from their JSX sources.
-/

namespace BB84

/-- Modelled from the spec: the two conjugate encoding bases of §3
(missing `bb84_core.py`). -/
inductive Basis
  | rectilinear
  | diagonal
deriving DecidableEq, Repr, BEq

/-- Modelled from the spec: the Qubit data model of §3 (missing
`bb84_core.py`): a classical bit together with the sender's encoding basis. -/
structure Qubit where
  bit : Bool
  basis : Basis
deriving DecidableEq, Repr

/-- Modelled from the spec: the MeasurementOutcome data model of §3
(missing `bb84_core.py`). -/
structure MeasurementOutcome where
  bit : Bool
  basisUsed : Basis
deriving DecidableEq, Repr

/-- Modelled from the spec: the injectable seedable random source required by
§4.1 and §9 (missing `bb84_core.py`).  A 32-bit linear congruential step. -/
def lcgNext (s : Nat) : Nat := (1664525 * s + 1013904223) % 4294967296

/-- Modelled from the spec: state of the injected random source (§9:
randomness as an injectable dependency, not a global generator). -/
structure Rng where
  state : Nat
deriving DecidableEq, Repr

/-- Draw one uniform bit (taken from the higher-order bits of the LCG state,
whose low bit merely alternates). -/
def Rng.nextBool (r : Rng) : Bool × Rng :=
  ((lcgNext r.state / 65536) % 2 == 1, ⟨lcgNext r.state⟩)

/-- Draw a uniform basis, per §4.3 `chooseBasis`. -/
def Rng.nextBasis (r : Rng) : Basis × Rng :=
  (if (r.nextBool).1 then Basis.diagonal else Basis.rectilinear, (r.nextBool).2)

/-- Draw a uniform integer in `[0, bound)` (modulo reduction of the mixed
state; `bound = 0` degenerates to `0`). -/
def Rng.nextNat (r : Rng) (bound : Nat) : Nat × Rng :=
  ((lcgNext r.state / 65536) % max bound 1, ⟨lcgNext r.state⟩)

/-- Draw a rational in `[0, 1]` with resolution 1/1024, used for Bernoulli
trials. -/
def Rng.nextUnit (r : Rng) : ℚ × Rng :=
  (((lcgNext r.state / 65536) % 1025 : ℕ) / 1024, ⟨lcgNext r.state⟩)

/-- Modelled from the spec: `prepare(bit, basis)` of §4.1 (missing
`bb84_core.py`): deterministic construction, no side effects. -/
def prepare (bit : Bool) (basis : Basis) : Qubit := ⟨bit, basis⟩

/-- Measurement with the random draw made explicit: when the measurement
basis matches the preparation basis the prepared bit is returned, otherwise
the outcome is the supplied random bit (§3 MeasurementOutcome invariant). -/
def measureWith (q : Qubit) (basis : Basis) (rand : Bool) : MeasurementOutcome :=
  if basis = q.basis then ⟨q.bit, basis⟩ else ⟨rand, basis⟩

/-- Modelled from the spec: `measure(qubit, basis)` of §4.1 (missing
`bb84_core.py`).  On a basis match the outcome is deterministic and the
random source is not consumed; on a mismatch one fresh uniform bit is drawn
from the injected source. -/
def measure (q : Qubit) (basis : Basis) (r : Rng) : MeasurementOutcome × Rng :=
  if basis = q.basis then (⟨q.bit, basis⟩, r)
  else (measureWith q basis (r.nextBool).1, (r.nextBool).2)

/-- Modelled from the spec: the AttackerProfile data model of §3 (missing
`eve.py` / `bb84_core.py`): a named interceptor with an intercept
probability; its basis choice is drawn per intercepted qubit. -/
structure AttackerProfile where
  name : String
  interceptProbability : ℚ
deriving DecidableEq, Repr

/-- Modelled from the spec: `shouldIntercept` of §4.3 (missing `eve.py`):
a Bernoulli trial with probability `interceptProbability`, independent per
qubit. -/
def shouldIntercept (a : AttackerProfile) (r : Rng) : Bool × Rng :=
  (decide ((r.nextUnit).1 < a.interceptProbability), (r.nextUnit).2)

/-- Modelled from the spec: `intercept(qubit, attacker)` of §4.1 (missing
`eve.py`): the attacker measures in a uniformly random basis and re-prepares
a fresh qubit from the measured bit and that basis (intercept-resend). -/
def intercept (q : Qubit) (r : Rng) : Qubit × Rng :=
  let br := r.nextBasis
  let mr := measure q br.1 br.2
  (prepare (mr.1).bit br.1, mr.2)

/-- Apply one attacker to a qubit in flight: intercept-resend when its
Bernoulli trial fires, pass the qubit through untouched otherwise. -/
def applyAttacker (a : AttackerProfile) (q : Qubit) (r : Rng) : Qubit × Rng :=
  let go := shouldIntercept a r
  if go.1 then intercept q go.2 else (q, go.2)

/-- Modelled from the spec: sequential composition of the attacker chain
(§3, §9: interceptions compose in the order the attackers are wired onto the
link). -/
def applyChain : List AttackerProfile → Qubit → Rng → Qubit × Rng
  | [], q, r => (q, r)
  | a :: rest, q, r =>
    let qr := applyAttacker a q r
    applyChain rest qr.1 qr.2

/-- Per-qubit transcript of one BB84Link exchange: the sender's original bit
and basis, the receiver's basis, and the receiver's measured bit. -/
structure QubitRecord where
  senderBit : Bool
  senderBasis : Basis
  receiverBasis : Basis
  receiverBit : Bool
deriving DecidableEq, Repr

/-- Modelled from the spec: steps 1–3 of the §4.2 BB84Link algorithm for one
qubit (missing `bb84_core.py`): the sender draws a uniform bit and basis and
prepares a qubit, the qubit passes through the attacker chain, and the
receiver measures in a fresh uniform basis.  The transcript keeps the
sender's ORIGINAL basis, untouched by any attacker. -/
def runQubit (chain : List AttackerProfile) (r : Rng) : QubitRecord × Rng :=
  let sb := r.nextBool
  let sB := sb.2.nextBasis
  let qc := applyChain chain (prepare sb.1 sB.1) sB.2
  let rB := qc.2.nextBasis
  let mr := measure qc.1 rB.1 rB.2
  (⟨sb.1, sB.1, rB.1, (mr.1).bit⟩, mr.2)

/-- Run `n` independent qubit exchanges, threading the random source. -/
def runQubits : Nat → List AttackerProfile → Rng → List QubitRecord × Rng
  | 0, _, r => ([], r)
  | n + 1, chain, r =>
    let qr := runQubit chain r
    let rest := runQubits n chain qr.2
    (qr.1 :: rest.1, rest.2)

/-- The full transcript of one link run from a seed. -/
def linkTranscript (n : Nat) (chain : List AttackerProfile) (seed : Nat) :
    List QubitRecord :=
  (runQubits n chain ⟨seed⟩).1

/-- Modelled from the spec: sifting, step 4 of §4.2 (missing
`bb84_core.py`): retain exactly the positions where the receiver's basis
equals the sender's original basis, in original index order. -/
def sifted (ts : List QubitRecord) : List QubitRecord :=
  ts.filter (fun t => t.receiverBasis == t.senderBasis)

/-- Sifted sender key: the sender's bits at the surviving positions. -/
def senderKeyOf (ts : List QubitRecord) : List Bool :=
  (sifted ts).map QubitRecord.senderBit

/-- Sifted receiver key: the receiver's measured bits at the surviving
positions. -/
def receiverKeyOf (ts : List QubitRecord) : List Bool :=
  (sifted ts).map QubitRecord.receiverBit

/-- Number of position-by-position mismatches between the sifted keys. -/
def mismatchCount (ts : List QubitRecord) : Nat :=
  ((sifted ts).filter (fun t => t.senderBit != t.receiverBit)).length

/-- Modelled from the spec: QBER computation, step 5 of §4.2 (missing
`bb84_core.py`): `100 * mismatches / sifted_length`, defined as 0 when the
sifted length is 0. -/
def qberOf (ts : List QubitRecord) : ℚ :=
  if (sifted ts).length = 0 then 0
  else 100 * mismatchCount ts / (sifted ts).length

/-- Modelled from the spec: the fixed 11.0 % security threshold (§3,
README "Security Threshold"). -/
def SECURITY_THRESHOLD : ℚ := 11

/-- Modelled from the spec: the LinkResult record of §3 (missing
`bb84_core.py`), extended per §4.2/§7 with the explicit `indeterminate`
flag for zero-sifted-length runs. -/
structure LinkResult where
  senderKey : List Bool
  receiverKey : List Bool
  qberPercent : ℚ
  secure : Bool
  indeterminate : Bool
  attackersInvolved : List String
deriving DecidableEq, Repr

/-- Modelled from the spec: steps 4–6 of §4.2 (missing `bb84_core.py`).
A zero sifted length yields QBER 0 and flags the link indeterminate rather
than secure (§4.2 step 5, §7 DegenerateRunWarning); otherwise
`secure = qberPercent < 11.0`. -/
def mkLinkResult (chain : List AttackerProfile) (ts : List QubitRecord) :
    LinkResult :=
  let siftLen := (sifted ts).length
  { senderKey := senderKeyOf ts
    receiverKey := receiverKeyOf ts
    qberPercent := qberOf ts
    secure := if siftLen = 0 then false else decide (qberOf ts < SECURITY_THRESHOLD)
    indeterminate := decide (siftLen = 0)
    attackersInvolved := chain.map AttackerProfile.name }

/-- Modelled from the spec: the ConfigurationError kinds of §7 (missing
`bb84_core.py` / `api.py`), each carrying the offending parameter. -/
inductive ConfigError
  | invalidNumQubits (n : Int)
  | invalidProbability (attacker : String) (p : ℚ)
  | unknownReceiver (name : String)
  | unknownArchetype (name : String)
deriving DecidableEq, Repr

/-- First attacker of the chain whose intercept probability lies outside
`[0, 1]`, reported as a ConfigurationError (§7: never silently clamped). -/
def validateChain (chain : List AttackerProfile) : Option ConfigError :=
  match chain.find? (fun a =>
      decide (a.interceptProbability < 0) || decide (1 < a.interceptProbability)) with
  | some a => some (ConfigError.invalidProbability a.name a.interceptProbability)
  | none => none

/-- Modelled from the spec: `runSingleLink(numQubits, attackerChain)` of §6
(missing `bb84_core.py`), with the injectable seed of §9.  Fails fast on
`numQubits <= 0` and on any out-of-range intercept probability; otherwise
runs the single deterministic pass of §4.2. -/
def runSingleLink (numQubits : Int) (chain : List AttackerProfile)
    (seed : Nat) : Except ConfigError LinkResult :=
  if numQubits ≤ 0 then Except.error (ConfigError.invalidNumQubits numQubits)
  else
    match validateChain chain with
    | some e => Except.error e
    | none => Except.ok (mkLinkResult chain (linkTranscript numQubits.toNat chain seed))

/-- Modelled from the spec: the canonical receiver set of §4.4 and the
README example (Bob, Charlie, Dave, Diana, Eve_R) (missing `network.py`). -/
def RECEIVERS : List String := ["Bob", "Charlie", "Dave", "Diana", "Eve_R"]

/-- Modelled from the spec: the five attack-scenario archetype names of
§2/§4.5 (missing `network.py`). -/
def ARCHETYPES : List String :=
  ["no_attack", "single_attacker_single_target",
   "single_attacker_multiple_targets", "multiple_attackers_single_targets",
   "multiple_attackers_multiple_targets"]

/-- Modelled from the spec: a scenario specification of §4.4 (missing
`network.py`): an archetype name plus a mapping from target receiver names
to the attacker chain wired onto that receiver's link. -/
structure ScenarioSpec where
  archetype : String
  assignments : List (String × List AttackerProfile)
deriving DecidableEq, Repr

/-- The attacker chain a scenario assigns to one receiver (empty chain for
an untargeted receiver = no-attack baseline, §4.4). -/
def chainFor (spec : ScenarioSpec) (recv : String) : List AttackerProfile :=
  match spec.assignments.find? (fun p => p.1 == recv) with
  | some p => p.2
  | none => []

/-- Modelled from the spec: the ScenarioResult record of §3 (missing
`network.py`).  Classification policy, pinned per §7/§9: a link counts as
secure exactly when its `secure` flag is true, and as compromised otherwise;
indeterminate links therefore fall on the compromised side, never the
secure one. -/
structure ScenarioResult where
  scenarioName : String
  linkResults : List LinkResult
  secureLinkCount : Nat
  compromisedLinkCount : Nat
  securityPercentage : ℚ
deriving DecidableEq, Repr

/-- Modelled from the spec: the §4.4 aggregation (missing `network.py`):
count secure and non-secure links and compute
`securityPercentage = 100 * secureLinkCount / totalLinks`. -/
def mkScenarioResult (name : String) (links : List LinkResult) :
    ScenarioResult :=
  let sec := (links.filter (fun l => l.secure)).length
  { scenarioName := name
    linkResults := links
    secureLinkCount := sec
    compromisedLinkCount := (links.filter (fun l => !l.secure)).length
    securityPercentage := 100 * (sec : ℚ) / links.length }

/-- Modelled from the spec: scenario validation of §4.4/§7 (missing
`network.py`): an unknown archetype name, a target receiver outside the
receiver set, or an out-of-range intercept probability is a
ConfigurationError naming the offending parameter. -/
def validateScenario (receiverSet : List String) (spec : ScenarioSpec) :
    Option ConfigError :=
  if !(ARCHETYPES.contains spec.archetype) then
    some (ConfigError.unknownArchetype spec.archetype)
  else
    match spec.assignments.find? (fun p => !(receiverSet.contains p.1)) with
    | some p => some (ConfigError.unknownReceiver p.1)
    | none => validateChain (spec.assignments.flatMap (fun p => p.2))

/-- Deterministic per-link sub-seed (§5: each link draws from its own
deterministically sub-seeded stream). -/
def linkSeed (seed idx : Nat) : Nat := lcgNext (seed + 7919 * idx)

/-- Run one link per receiver with the scenario's assigned chain and the
link's own sub-seed. -/
def runScenarioLinks (numQubits : Nat) (receiverSet : List String)
    (spec : ScenarioSpec) (seed : Nat) : List LinkResult :=
  (List.range receiverSet.length).map (fun i =>
    let recv := receiverSet.getD i ""
    let chain := chainFor spec recv
    mkLinkResult chain (linkTranscript numQubits chain (linkSeed seed i)))

/-- Modelled from the spec: `runNetworkScenario(numQubits, receiverSet,
scenarioSpec)` of §6 (missing `network.py`), with the injectable seed of
§9.  Fails fast on invalid configuration, otherwise builds one BB84Link per
receiver and aggregates. -/
def runNetworkScenario (numQubits : Int) (receiverSet : List String)
    (spec : ScenarioSpec) (seed : Nat) : Except ConfigError ScenarioResult :=
  if numQubits ≤ 0 then Except.error (ConfigError.invalidNumQubits numQubits)
  else
    match validateScenario receiverSet spec with
    | some e => Except.error e
    | none =>
        Except.ok (mkScenarioResult spec.archetype
          (runScenarioLinks numQubits.toNat receiverSet spec seed))

/-- Modelled from the spec: randomized parameterization of one scenario slot
(§4.5, missing `network.py`): a uniformly chosen archetype, an attacker
count in 1–3, an intercept rate in `[0, 1]`, and target assignments within
the fixed receiver set. -/
def genScenario (r : Rng) : ScenarioSpec × Rng :=
  let a1 := r.nextNat 5
  let a2 := a1.2.nextNat 3
  let a3 := a2.2.nextNat 11
  let a4 := a3.2.nextNat RECEIVERS.length
  let ai := a1.1
  let na := a2.1
  let ir := a3.1
  let ti := a4.1
  let p : ℚ := (ir : ℚ) / 10
  let attackers := (List.range (na + 1)).map
    (fun k => AttackerProfile.mk ("Eve" ++ toString (k + 1)) p)
  let one := [AttackerProfile.mk "Eve1" p]
  let spec : ScenarioSpec :=
    if ai = 0 then ⟨ARCHETYPES.getD 0 "", []⟩
    else if ai = 1 then ⟨ARCHETYPES.getD 1 "", [(RECEIVERS.getD ti "", one)]⟩
    else if ai = 2 then
      ⟨ARCHETYPES.getD 2 "",
        (List.range (ti + 1)).map (fun k => (RECEIVERS.getD k "", one))⟩
    else if ai = 3 then
      ⟨ARCHETYPES.getD 3 "",
        attackers.enum.map (fun ak =>
          (RECEIVERS.getD ((ti + ak.1) % RECEIVERS.length) "", [ak.2]))⟩
    else
      ⟨ARCHETYPES.getD 4 "",
        attackers.enum.map (fun ak =>
          (RECEIVERS.getD ((ti + 2 * ak.1) % RECEIVERS.length) "", [ak.2]))⟩
  (spec, a4.2)

/-- Modelled from the spec: the overall statistics of §3 NetworkRunResult
(missing `network.py`): sums across all scenarios. -/
structure OverallStats where
  secureLinks : Nat
  compromisedLinks : Nat
  securityPercentage : ℚ
deriving DecidableEq, Repr

/-- Modelled from the spec: the NetworkRunResult record of §3 (missing
`network.py`). -/
structure NetworkRunResult where
  numScenarios : Nat
  scenarios : List ScenarioResult
  overallStats : OverallStats
deriving DecidableEq, Repr

/-- Generate and run `k` random scenarios, threading the random source. -/
def runBatchAux (numQubits : Nat) : Nat → Rng → List ScenarioResult × Rng
  | 0, r => ([], r)
  | k + 1, r =>
    let g := genScenario r
    let s := mkScenarioResult (g.1).archetype
      (runScenarioLinks numQubits RECEIVERS g.1 (g.2).state)
    let rest := runBatchAux numQubits k ⟨lcgNext (g.2).state⟩
    (s :: rest.1, rest.2)

/-- Modelled from the spec: `runRandomBatch(numQubits, numScenarios, seed)`
of §6/§4.5 (missing `network.py` / `api.py`): a fully seeded batch of
random scenarios with summed overall statistics.  Fails fast on
non-positive counts. -/
def runRandomBatch (numQubits numScenarios : Int) (seed : Nat) :
    Except ConfigError NetworkRunResult :=
  if numQubits ≤ 0 then Except.error (ConfigError.invalidNumQubits numQubits)
  else if numScenarios ≤ 0 then
    Except.error (ConfigError.invalidNumQubits numScenarios)
  else
    let scenarios := (runBatchAux numQubits.toNat numScenarios.toNat ⟨seed⟩).1
    let sec := (scenarios.map ScenarioResult.secureLinkCount).sum
    let comp := (scenarios.map ScenarioResult.compromisedLinkCount).sum
    Except.ok
      { numScenarios := numScenarios.toNat
        scenarios := scenarios
        overallStats :=
          { secureLinks := sec
            compromisedLinks := comp
            securityPercentage := 100 * (sec : ℚ) / (sec + comp) } }

namespace Frontend

/-- Value an HTML range input hands to its change handler: per the HTML
living standard the input sanitizes its value into `[min, max]`, so the
handler only ever observes a clamped value.  `RandomScenarios.jsx` then
applies `Number(...)`, the identity on that numeric value. -/
def clampSlider (lo hi v : Int) : Int := max lo (min hi v)

/-- The two slider-backed state variables of the RandomScenarios component
(`RandomScenarios.jsx`, `useState(10)` / `useState(5)`). -/
structure ControlsState where
  qubits : Int
  numScenarios : Int
deriving DecidableEq, Repr

/-- Initial component state: `qubits = 10`, `numScenarios = 5`. -/
def initControls : ControlsState := ⟨10, 5⟩

/-- A user interaction with one of the two sliders, carrying the raw value
the browser would report for that input. -/
inductive ControlsEvent
  | qubitsInput (v : Int)
  | scenariosInput (v : Int)
deriving DecidableEq, Repr

/-- One onChange step: the qubits slider has `min="1" max="20"`, the
scenarios slider `min="1" max="10"`; each handler stores
`Number(e.target.value)`. -/
def stepControls (s : ControlsState) : ControlsEvent → ControlsState
  | ControlsEvent.qubitsInput v => { s with qubits := clampSlider 1 20 v }
  | ControlsEvent.scenariosInput v => { s with numScenarios := clampSlider 1 10 v }

/-- The component state after a sequence of slider interactions. -/
def runEvents (s : ControlsState) (es : List ControlsEvent) : ControlsState :=
  es.foldl stepControls s

/-- The request body `runSimulation` posts to `/api/network/random`:
`\x7b num_qubits: qubits, num_scenarios: numScenarios \x7d`. -/
def requestBody (s : ControlsState) : Int × Int := (s.qubits, s.numScenarios)

/-- Shape of the parsed JSON reply in `runSimulation`: a `success` flag,
the `data` payload and an optional `error` string (absent or empty models
a JS-falsy `data.error`). -/
structure ApiResponse where
  success : Bool
  data : String
  error : Option String
deriving DecidableEq, Repr

/-- How one `runSimulation` call resolves: the fetch either yields a parsed
response or throws with a message. -/
inductive FetchOutcome
  | response (resp : ApiResponse)
  | thrown (msg : String)
deriving DecidableEq, Repr

/-- The `loading` / `results` / `error` state of the RandomScenarios
component. -/
structure SimState where
  loading : Bool
  results : Option String
  error : Option String
deriving DecidableEq, Repr

/-- JS `data.error || "Simulation failed"`: the fallback fires on a missing
as well as on an empty (falsy) error string. -/
def errorOr (e : Option String) : String :=
  match e with
  | some s => if s = "" then "Simulation failed" else s
  | none => "Simulation failed"

/-- Embedding of `runSimulation` (`RandomScenarios.jsx` lines 11–37) as a
state transformer over the resolved fetch outcome: set `loading`, clear
`error` and `results`, then set `results` on `data.success`, set `error`
otherwise or on a thrown fetch, and finally reset `loading`. -/
def runSimulation (s : SimState) (o : FetchOutcome) : SimState :=
  let s1 : SimState := { s with loading := true, error := none, results := none }
  let s2 : SimState :=
    match o with
    | FetchOutcome.response resp =>
        if resp.success then { s1 with results := some resp.data }
        else { s1 with error := some (errorOr resp.error) }
    | FetchOutcome.thrown msg =>
        { s1 with error := some ("Failed to connect to API: " ++ msg) }
  { s2 with loading := false }

/-- Embedding of `App.jsx` line 9: the Alice→Bob link stroke class. -/
def linkColor (intercept : Int) : String :=
  if intercept > 40 then "stroke-red-500" else "stroke-green-400"

/-- Embedding of `App.jsx` line 10: the Eve badge background class. -/
def eveColor (intercept : Int) : String :=
  if intercept > 40 then "bg-red-500" else "bg-yellow-400"

end Frontend

/-! ### Helper lemmas -/

theorem runQubits_fst_length (n : Nat) (chain : List AttackerProfile) (r : Rng) :
    (runQubits n chain r).1.length = n := by
  induction n generalizing r with
  | zero => rfl
  | succ k ih =>
      show ((runQubit chain r).1 ::
        (runQubits k chain (runQubit chain r).2).1).length = k + 1
      simp [ih]

theorem linkTranscript_length (n : Nat) (chain : List AttackerProfile)
    (seed : Nat) : (linkTranscript n chain seed).length = n :=
  runQubits_fst_length n chain ⟨seed⟩

theorem runSingleLink_ok (n : Int) (chain : List AttackerProfile) (seed : Nat)
    (hn : 0 < n) (hc : validateChain chain = none) :
    runSingleLink n chain seed =
      Except.ok (mkLinkResult chain (linkTranscript n.toNat chain seed)) := by
  have hn' : ¬ n ≤ 0 := not_le.mpr hn
  simp [runSingleLink, hn', hc]

theorem runSingleLink_ok_inv (n : Int) (chain : List AttackerProfile)
    (seed : Nat) (r : LinkResult)
    (h : runSingleLink n chain seed = Except.ok r) :
    r = mkLinkResult chain (linkTranscript n.toNat chain seed) := by
  unfold runSingleLink at h
  split at h
  · exact absurd h (by simp)
  · split at h
    · exact absurd h (by simp)
    · exact (Except.ok.injEq _ _ ▸ h).symm

/-- C2: measuring a prepared qubit in the preparation basis is deterministic
and returns the prepared bit without consuming randomness; measuring in the
other basis returns exactly the bit drawn fresh from the injected random
source, and each of the two outcomes arises from exactly one of the two
equiprobable values of that draw (uniform over \x7b0,1\x7d, independent per
measurement since every mismatched measurement advances the source). -/
theorem measure_deterministic_on_match_uniform_on_mismatch
    (q : Qubit) (b : Basis) (r : Rng) (x : Bool) :
    (b = q.basis →
      measure q b r = (⟨q.bit, b⟩, r) ∧ measureWith q b x = ⟨q.bit, b⟩) ∧
    (b ≠ q.basis →
      (measureWith q b x).bit = x ∧
      measure q b r = (measureWith q b (r.nextBool).1, (r.nextBool).2) ∧
      ∀ out : Bool,
        (Finset.univ.filter
          (fun y : Bool => (measureWith q b y).bit = out)).card = 1) := by
  constructor
  · intro h
    simp [measure, measureWith, h]
  · intro h
    refine ⟨by simp [measureWith, h], by simp [measure, h], ?_⟩
    intro out
    simp only [measureWith, if_neg h]
    cases out <;> decide

/-- Witness for C2 at concrete inputs: a rectilinear qubit measured
rectilinearly yields its bit deterministically, and measured diagonally
yields the injected random bit, each outcome from exactly one draw. -/
theorem measure_deterministic_on_match_uniform_on_mismatch_witness :
    (measure ⟨true, Basis.rectilinear⟩ Basis.rectilinear ⟨0⟩ =
      (⟨true, Basis.rectilinear⟩, ⟨0⟩) ∧
     measureWith ⟨true, Basis.rectilinear⟩ Basis.rectilinear false =
      ⟨true, Basis.rectilinear⟩) ∧
    ((measureWith ⟨true, Basis.rectilinear⟩ Basis.diagonal false).bit = false ∧
     measure ⟨true, Basis.rectilinear⟩ Basis.diagonal ⟨0⟩ =
      (measureWith ⟨true, Basis.rectilinear⟩ Basis.diagonal
        ((Rng.nextBool ⟨0⟩).1), (Rng.nextBool ⟨0⟩).2) ∧
     ∀ out : Bool,
        (Finset.univ.filter
          (fun y : Bool =>
            (measureWith ⟨true, Basis.rectilinear⟩ Basis.diagonal y).bit =
              out)).card = 1) :=
  ⟨(measure_deterministic_on_match_uniform_on_mismatch
      ⟨true, Basis.rectilinear⟩ Basis.rectilinear ⟨0⟩ false).1 rfl,
   (measure_deterministic_on_match_uniform_on_mismatch
      ⟨true, Basis.rectilinear⟩ Basis.diagonal ⟨0⟩ false).2 (by decide)⟩

namespace Frontend

/-- The range invariant maintained by the RandomScenarios sliders. -/
def InRange (s : ControlsState) : Prop :=
  1 ≤ s.qubits ∧ s.qubits ≤ 20 ∧ 1 ≤ s.numScenarios ∧ s.numScenarios ≤ 10

theorem stepControls_inRange (s : ControlsState) (e : ControlsEvent)
    (h : InRange s) : InRange (stepControls s e) := by
  obtain ⟨h1, h2, h3, h4⟩ := h
  cases e <;>
    simp only [stepControls, clampSlider, InRange] <;>
    refine ⟨?_, ?_, ?_, ?_⟩ <;> omega

theorem runEvents_inRange (es : List ControlsEvent) (s : ControlsState)
    (h : InRange s) : InRange (runEvents s es) := by
  induction es generalizing s with
  | nil => exact h
  | cons e rest ih => exact ih (stepControls s e) (stepControls_inRange s e h)

/-- C8: starting from the component's initial state, any sequence of slider
interactions leaves `qubits` in 1–20 and `numScenarios` in 1–10, so the
`num_qubits` / `num_scenarios` fields of every request body the component
posts lie in those ranges. -/
theorem slider_bounds (es : List ControlsEvent) :
    1 ≤ (requestBody (runEvents initControls es)).1 ∧
    (requestBody (runEvents initControls es)).1 ≤ 20 ∧
    1 ≤ (requestBody (runEvents initControls es)).2 ∧
    (requestBody (runEvents initControls es)).2 ≤ 10 ∧
    (requestBody (runEvents initControls es)).1 =
      (runEvents initControls es).qubits ∧
    (requestBody (runEvents initControls es)).2 =
      (runEvents initControls es).numScenarios := by
  have h := runEvents_inRange es initControls (by constructor <;> simp [initControls])
  obtain ⟨h1, h2, h3, h4⟩ := h
  exact ⟨h1, h2, h3, h4, rfl, rfl⟩

/-- C9: after any completed `runSimulation` pass, `loading` is false, at most
one of `results` / `error` is set, and which one is set follows the branch
taken: a successful response stores the payload, a failure response stores
the reported or fallback error, a thrown fetch stores the connection
error — starting from any prior component state. -/
theorem runSimulation_state (s : SimState) (o : FetchOutcome) :
    (runSimulation s o).loading = false ∧
    ((runSimulation s o).results = none ∨ (runSimulation s o).error = none) ∧
    (∀ resp, o = FetchOutcome.response resp → resp.success = true →
      (runSimulation s o).results = some resp.data ∧
      (runSimulation s o).error = none) ∧
    (∀ resp, o = FetchOutcome.response resp → resp.success = false →
      (runSimulation s o).error = some (errorOr resp.error) ∧
      (runSimulation s o).results = none) ∧
    (∀ msg, o = FetchOutcome.thrown msg →
      (runSimulation s o).error = some ("Failed to connect to API: " ++ msg) ∧
      (runSimulation s o).results = none) := by
  cases o with
  | response resp =>
      cases hs : resp.success <;>
        simp [runSimulation, hs]
  | thrown msg =>
      simp [runSimulation]

/-- Witness for C9: a successful response from a fresh component state sets
`results`, clears `error` and resets `loading`. -/
theorem runSimulation_state_witness :
    (runSimulation ⟨false, none, none⟩
      (FetchOutcome.response ⟨true, "payload", none⟩)).loading = false ∧
    (runSimulation ⟨false, none, none⟩
      (FetchOutcome.response ⟨true, "payload", none⟩)).results = some "payload" ∧
    (runSimulation ⟨false, none, none⟩
      (FetchOutcome.response ⟨true, "payload", none⟩)).error = none := by
  have h := runSimulation_state ⟨false, none, none⟩
    (FetchOutcome.response ⟨true, "payload", none⟩)
  exact ⟨h.1, (h.2.2.1 _ rfl rfl).1, (h.2.2.1 _ rfl rfl).2⟩

/-- C10: the Alice→Bob link is stroked red exactly when `intercept > 40` and
green otherwise, the Eve badge is red exactly when `intercept > 40` and
yellow otherwise, and the two decisions agree on the same threshold. -/
theorem colors_agree (intercept : Int) :
    (linkColor intercept = "stroke-red-500" ↔ 40 < intercept) ∧
    (linkColor intercept = "stroke-green-400" ↔ ¬ 40 < intercept) ∧
    (eveColor intercept = "bg-red-500" ↔ 40 < intercept) ∧
    (eveColor intercept = "bg-yellow-400" ↔ ¬ 40 < intercept) ∧
    (linkColor intercept = "stroke-red-500" ↔
      eveColor intercept = "bg-red-500") := by
  by_cases h : 40 < intercept <;>
    simp only [linkColor, eveColor, if_pos, if_neg, h, if_true, if_false] <;>
    refine ⟨?_, ?_, ?_, ?_, ?_⟩ <;> simp [h]

end Frontend

/-- C1 (counterexample to the claim as stated): a link run with one qubit
and seed 2 sifts away every position, so its result has
`qberPercent = 0 < 11` and yet `secure = false` — the unconditional
biconditional `secure == (qberPercent < SECURITY_THRESHOLD)` fails on
zero-sifted-length runs. -/
theorem secure_iff_qber_counterexample :
    ∃ r : LinkResult, runSingleLink 1 [] 2 = Except.ok r ∧
      r.qberPercent < SECURITY_THRESHOLD ∧ r.secure = false :=
  ⟨mkLinkResult [] (linkTranscript 1 [] 2), rfl, by decide, by decide⟩

/-- C1 (amended): for every LinkResult produced by `runSingleLink`,
`secure` is true iff the link is not indeterminate (nonzero sifted length)
AND `qberPercent < 11.0`; in particular a link whose `qberPercent` is
exactly 11.0 is classified not secure. -/
theorem secure_iff_qber_amended (n : Int) (chain : List AttackerProfile)
    (seed : Nat) (r : LinkResult)
    (h : runSingleLink n chain seed = Except.ok r) :
    (r.secure = true ↔
      (r.indeterminate = false ∧ r.qberPercent < SECURITY_THRESHOLD)) ∧
    (r.qberPercent = SECURITY_THRESHOLD → r.secure = false) := by
  have hr := runSingleLink_ok_inv n chain seed r h
  subst hr
  by_cases h0 : (sifted (linkTranscript n.toNat chain seed)).length = 0
  · constructor
    · simp [mkLinkResult, h0]
    · intro _
      simp [mkLinkResult, h0]
  · constructor
    · simp [mkLinkResult, h0]
    · intro hq
      simp only [mkLinkResult] at hq ⊢
      simp only [if_neg h0] at hq ⊢
      simp [hq]

/-- Witness for the amended C1 at a concrete run: two qubits, no attacker,
seed 0 produce a non-indeterminate link whose `secure` flag matches the
QBER comparison. -/
theorem secure_iff_qber_amended_witness :
    ((mkLinkResult [] (linkTranscript (2 : Int).toNat [] 0)).secure = true ↔
      ((mkLinkResult [] (linkTranscript (2 : Int).toNat [] 0)).indeterminate
          = false ∧
        (mkLinkResult [] (linkTranscript (2 : Int).toNat [] 0)).qberPercent <
          SECURITY_THRESHOLD)) ∧
    ((mkLinkResult [] (linkTranscript (2 : Int).toNat [] 0)).qberPercent =
        SECURITY_THRESHOLD →
      (mkLinkResult [] (linkTranscript (2 : Int).toNat [] 0)).secure
        = false) :=
  secure_iff_qber_amended 2 [] 0
    (mkLinkResult [] (linkTranscript (2 : Int).toNat [] 0)) rfl

/-- C3: a link run with `N > 0` qubits and any (validly configured) attacker
chain produces its sifted keys exactly by filtering the transcript at the
positions where the receiver's basis equals the sender's ORIGINAL basis, in
original index order; the two keys have equal length, that length is at most
`N`, and the transcript has exactly `N` positions. -/
theorem sifting_uses_original_bases (n : Int) (chain : List AttackerProfile)
    (seed : Nat) (hn : 0 < n) (hc : validateChain chain = none) :
    runSingleLink n chain seed =
      Except.ok (mkLinkResult chain (linkTranscript n.toNat chain seed)) ∧
    (mkLinkResult chain (linkTranscript n.toNat chain seed)).senderKey =
      ((linkTranscript n.toNat chain seed).filter
        (fun t => t.receiverBasis == t.senderBasis)).map
        QubitRecord.senderBit ∧
    (mkLinkResult chain (linkTranscript n.toNat chain seed)).receiverKey =
      ((linkTranscript n.toNat chain seed).filter
        (fun t => t.receiverBasis == t.senderBasis)).map
        QubitRecord.receiverBit ∧
    (mkLinkResult chain (linkTranscript n.toNat chain seed)).senderKey.length
      = (mkLinkResult chain
          (linkTranscript n.toNat chain seed)).receiverKey.length ∧
    (mkLinkResult chain (linkTranscript n.toNat chain seed)).senderKey.length
      ≤ n.toNat ∧
    (linkTranscript n.toNat chain seed).length = n.toNat := by
  refine ⟨runSingleLink_ok n chain seed hn hc, rfl, rfl, ?_, ?_,
    linkTranscript_length _ _ _⟩
  · simp [mkLinkResult, senderKeyOf, receiverKeyOf]
  · calc (mkLinkResult chain
          (linkTranscript n.toNat chain seed)).senderKey.length
        = (sifted (linkTranscript n.toNat chain seed)).length := by
          simp [mkLinkResult, senderKeyOf]
      _ ≤ (linkTranscript n.toNat chain seed).length :=
          List.length_filter_le _ _
      _ = n.toNat := linkTranscript_length _ _ _

/-- Witness for C3 at a concrete run: two qubits, empty attacker chain,
seed 0. -/
theorem sifting_uses_original_bases_witness :
    runSingleLink 2 [] 0 =
      Except.ok (mkLinkResult [] (linkTranscript (2 : Int).toNat [] 0)) ∧
    (mkLinkResult [] (linkTranscript (2 : Int).toNat [] 0)).senderKey =
      ((linkTranscript (2 : Int).toNat [] 0).filter
        (fun t => t.receiverBasis == t.senderBasis)).map
        QubitRecord.senderBit ∧
    (mkLinkResult [] (linkTranscript (2 : Int).toNat [] 0)).receiverKey =
      ((linkTranscript (2 : Int).toNat [] 0).filter
        (fun t => t.receiverBasis == t.senderBasis)).map
        QubitRecord.receiverBit ∧
    (mkLinkResult [] (linkTranscript (2 : Int).toNat [] 0)).senderKey.length
      = (mkLinkResult []
          (linkTranscript (2 : Int).toNat [] 0)).receiverKey.length ∧
    (mkLinkResult [] (linkTranscript (2 : Int).toNat [] 0)).senderKey.length
      ≤ (2 : Int).toNat ∧
    (linkTranscript (2 : Int).toNat [] 0).length = (2 : Int).toNat :=
  sifting_uses_original_bases 2 [] 0 (by decide) rfl

/-- C4: a validly configured link run whose sifted length is zero still
returns a result (no exception), with `qberPercent = 0`, the explicit
`indeterminate` flag set, and `secure = false`. -/
theorem zero_sift_indeterminate (n : Int) (chain : List AttackerProfile)
    (seed : Nat) (hn : 0 < n) (hc : validateChain chain = none)
    (h0 : (sifted (linkTranscript n.toNat chain seed)).length = 0) :
    runSingleLink n chain seed =
      Except.ok (mkLinkResult chain (linkTranscript n.toNat chain seed)) ∧
    (mkLinkResult chain (linkTranscript n.toNat chain seed)).qberPercent
      = 0 ∧
    (mkLinkResult chain (linkTranscript n.toNat chain seed)).indeterminate
      = true ∧
    (mkLinkResult chain (linkTranscript n.toNat chain seed)).secure
      = false := by
  refine ⟨runSingleLink_ok n chain seed hn hc, ?_, ?_, ?_⟩ <;>
    simp [mkLinkResult, qberOf, h0]

/-- Witness for C4: the one-qubit seed-2 run sifts away its only position
and is reported indeterminate, QBER 0, not secure, without an error. -/
theorem zero_sift_indeterminate_witness :
    runSingleLink 1 [] 2 =
      Except.ok (mkLinkResult [] (linkTranscript (1 : Int).toNat [] 2)) ∧
    (mkLinkResult [] (linkTranscript (1 : Int).toNat [] 2)).qberPercent
      = 0 ∧
    (mkLinkResult [] (linkTranscript (1 : Int).toNat [] 2)).indeterminate
      = true ∧
    (mkLinkResult [] (linkTranscript (1 : Int).toNat [] 2)).secure
      = false :=
  zero_sift_indeterminate 1 [] 2 (by decide) rfl (by decide)

/-- C5: `runRandomBatch` is a pure function of `(numQubits, numScenarios,
seed)` — every random draw in the batch derives from the injected seed, so
two invocations with the same seed return identical NetworkRunResult
values. -/
theorem runRandomBatch_reproducible (numQubits numScenarios : Int)
    (seed1 seed2 : Nat) (h : seed1 = seed2) :
    runRandomBatch numQubits numScenarios seed1 =
      runRandomBatch numQubits numScenarios seed2 := by
  rw [h]

/-- Witness for C5 at the spec's own example: `numQubits = 10`,
`numScenarios = 5`, `seed = 99`. -/
theorem runRandomBatch_reproducible_witness :
    (99 : Nat) = 99 ∧
    runRandomBatch 10 5 99 = runRandomBatch 10 5 99 :=
  ⟨rfl, runRandomBatch_reproducible 10 5 99 99 rfl⟩

/-- C6: every invalid configuration fails fast with a ConfigurationError
naming the offending parameter and produces no simulation output:
`N <= 0` on a single link or a scenario, an intercept probability outside
`[0, 1]` anywhere in the attacker chain, an unknown scenario archetype, and
a scenario targeting a receiver outside the receiver set. -/
theorem config_errors_fail_fast (n : Int) (chain : List AttackerProfile)
    (seed : Nat) (receiverSet : List String) (spec : ScenarioSpec) :
    (n ≤ 0 →
      runSingleLink n chain seed =
        Except.error (ConfigError.invalidNumQubits n) ∧
      runNetworkScenario n receiverSet spec seed =
        Except.error (ConfigError.invalidNumQubits n)) ∧
    (∀ a, a ∈ chain →
      (a.interceptProbability < 0 ∨ 1 < a.interceptProbability) →
      ∃ a', a' ∈ chain ∧
        (a'.interceptProbability < 0 ∨ 1 < a'.interceptProbability) ∧
        validateChain chain =
          some (ConfigError.invalidProbability a'.name
            a'.interceptProbability) ∧
        (0 < n → runSingleLink n chain seed =
          Except.error (ConfigError.invalidProbability a'.name
            a'.interceptProbability))) ∧
    (0 < n → ARCHETYPES.contains spec.archetype = false →
      runNetworkScenario n receiverSet spec seed =
        Except.error (ConfigError.unknownArchetype spec.archetype)) ∧
    (0 < n → ARCHETYPES.contains spec.archetype = true →
      ∀ pr, spec.assignments.find?
          (fun p => !(receiverSet.contains p.1)) = some pr →
        runNetworkScenario n receiverSet spec seed =
          Except.error (ConfigError.unknownReceiver pr.1)) := by
  refine ⟨?_, ?_, ?_, ?_⟩
  · intro h
    constructor <;> simp [runSingleLink, runNetworkScenario, h]
  · intro a ha hp
    have hpa : (fun a : AttackerProfile =>
        decide (a.interceptProbability < 0) ||
          decide (1 < a.interceptProbability)) a = true := by
      rcases hp with hp | hp <;> simp [hp]
    have hsome : (chain.find? (fun a : AttackerProfile =>
        decide (a.interceptProbability < 0) ||
          decide (1 < a.interceptProbability))).isSome :=
      List.find?_isSome.mpr ⟨a, ha, hpa⟩
    obtain ⟨a', ha'⟩ := Option.isSome_iff_exists.mp hsome
    have hmem : a' ∈ chain := List.mem_of_find?_eq_some ha'
    have hbad : (a'.interceptProbability < 0 ∨
        1 < a'.interceptProbability) := by
      have := List.find?_some ha'
      simpa using this
    have hvc : validateChain chain =
        some (ConfigError.invalidProbability a'.name
          a'.interceptProbability) := by
      simp [validateChain, ha']
    refine ⟨a', hmem, hbad, hvc, ?_⟩
    intro hn
    simp [runSingleLink, not_le.mpr hn, hvc]
  · intro hn harch
    have h' : ¬ spec.archetype ∈ ARCHETYPES := by simpa using harch
    simp [runNetworkScenario, not_le.mpr hn, validateScenario, h']
  · intro hn harch pr hfind
    have h' : spec.archetype ∈ ARCHETYPES := by simpa using harch
    simp at hfind
    simp [runNetworkScenario, not_le.mpr hn, validateScenario, h', hfind]

/-- Witness for C6: each failure mode triggered at a concrete input —
`numQubits = -1`; an attacker with probability 2; archetype `"bogus"`; a
scenario targeting the unknown receiver `"Mallory"`. -/
theorem config_errors_fail_fast_witness :
    (runSingleLink (-1) [] 0 =
      Except.error (ConfigError.invalidNumQubits (-1)) ∧
     runNetworkScenario (-1) RECEIVERS ⟨"no_attack", []⟩ 0 =
      Except.error (ConfigError.invalidNumQubits (-1))) ∧
    (∃ a', a' ∈ [AttackerProfile.mk "Eve" 2] ∧
      (a'.interceptProbability < 0 ∨ 1 < a'.interceptProbability) ∧
      validateChain [AttackerProfile.mk "Eve" 2] =
        some (ConfigError.invalidProbability a'.name
          a'.interceptProbability) ∧
      ((0 : Int) < 1 → runSingleLink 1 [AttackerProfile.mk "Eve" 2] 0 =
        Except.error (ConfigError.invalidProbability a'.name
          a'.interceptProbability))) ∧
    runNetworkScenario 1 RECEIVERS ⟨"bogus", []⟩ 0 =
      Except.error (ConfigError.unknownArchetype "bogus") ∧
    runNetworkScenario 1 RECEIVERS ⟨"no_attack", [("Mallory", [])]⟩ 0 =
      Except.error (ConfigError.unknownReceiver "Mallory") :=
  ⟨(config_errors_fail_fast (-1) [] 0 RECEIVERS ⟨"no_attack", []⟩).1
      (by decide),
   (config_errors_fail_fast 1 [AttackerProfile.mk "Eve" 2] 0 RECEIVERS
      ⟨"no_attack", []⟩).2.1 (AttackerProfile.mk "Eve" 2) (by simp)
      (Or.inr (by norm_num)),
   (config_errors_fail_fast 1 [] 0 RECEIVERS ⟨"bogus", []⟩).2.2.1
      (by decide) (by decide),
   (config_errors_fail_fast 1 [] 0 RECEIVERS
      ⟨"no_attack", [("Mallory", [])]⟩).2.2.2
      (by decide) (by decide) ("Mallory", []) (by decide)⟩

/-- C7: in every ScenarioResult built by the aggregation (and hence in every
result `runNetworkScenario` returns), `secureLinkCount` counts the links
whose `secure` flag is true, `compromisedLinkCount` counts the rest (the
pinned policy classifies indeterminate links as compromised, never secure),
the two counts sum to the total link count, and
`securityPercentage = 100 * secureLinkCount / totalLinks`. -/
theorem scenario_counts (name : String) (links : List LinkResult) (n : Int)
    (receiverSet : List String) (spec : ScenarioSpec) (seed : Nat) :
    ((mkScenarioResult name links).secureLinkCount +
        (mkScenarioResult name links).compromisedLinkCount
      = links.length ∧
     (mkScenarioResult name links).securityPercentage =
      100 * ((mkScenarioResult name links).secureLinkCount : ℚ) /
        links.length ∧
     (mkScenarioResult name links).linkResults = links) ∧
    (∀ res, runNetworkScenario n receiverSet spec seed = Except.ok res →
      res.secureLinkCount + res.compromisedLinkCount =
        res.linkResults.length ∧
      res.securityPercentage =
        100 * (res.secureLinkCount : ℚ) / res.linkResults.length) := by
  have key : ∀ (nm : String) (ls : List LinkResult),
      (mkScenarioResult nm ls).secureLinkCount +
        (mkScenarioResult nm ls).compromisedLinkCount = ls.length := by
    intro nm ls
    simp only [mkScenarioResult]
    exact (List.length_eq_length_filter_add
      (fun l : LinkResult => l.secure)).symm
  refine ⟨⟨key name links, rfl, rfl⟩, ?_⟩
  intro res h
  unfold runNetworkScenario at h
  split at h
  · exact absurd h (by simp)
  · split at h
    · exact absurd h (by simp)
    · have hres := (Except.ok.injEq _ _ ▸ h).symm
      subst hres
      exact ⟨key _ _, rfl⟩

/-- Witness for C7: the counts and percentage of the concrete no-attack
scenario over the canonical receiver set with one qubit and seed 0. -/
theorem scenario_counts_witness :
    ∃ res, runNetworkScenario 1 RECEIVERS ⟨"no_attack", []⟩ 0 =
        Except.ok res ∧
      res.secureLinkCount + res.compromisedLinkCount =
        res.linkResults.length ∧
      res.securityPercentage =
        100 * (res.secureLinkCount : ℚ) / res.linkResults.length :=
  ⟨mkScenarioResult "no_attack"
      (runScenarioLinks (1 : Int).toNat RECEIVERS ⟨"no_attack", []⟩ 0),
   rfl,
   (scenario_counts "no_attack" [] 1 RECEIVERS ⟨"no_attack", []⟩ 0).2 _ rfl⟩

end BB84
